import Mathlib

/-!
Shallow embedding of the access-control and publication-workflow core of the
CDweb application (`app/main.py`, `app/auth.py`), together with theorems
settling the specification claims about it.

Python dictionaries holding loosely-typed values are modelled as association
lists over a small `PyVal` type carrying Python truthiness; Mongo collections
are modelled as lists of documents; request handlers become pure functions
returning `Except Nat α` where the `Nat` is the raised HTTP status code.
-/

namespace CDweb

/-- A loosely typed Python value as it can appear in a stored permissions
mapping or another document field. -/
inductive PyVal where
  | none
  | bool (b : Bool)
  | str (s : String)
  | int (n : Int)
deriving DecidableEq, Repr

/-- Python truthiness of a `PyVal` (`bool(v)`). -/
def pyTruthy : PyVal → Bool
  | .none => false
  | .bool b => b
  | .str s => s ≠ ""
  | .int n => n ≠ 0

/-- A Python dict with string keys, as an association list. -/
abbrev PyDict := List (String × PyVal)

/-- Model of `PERMISSION_KEYS` from `app/main.py`: the six permission flags. -/
def PERMISSION_KEYS : List String :=
  ["photos", "blog", "activities",
   "photos_supervised", "blog_supervised", "activities_supervised"]

/-- Model of `SUPERVISED_PERMISSION_MAP` from `app/main.py`. -/
def SUPERVISED_PERMISSION_MAP : List (String × String) :=
  [("photos", "photos_supervised"),
   ("blog", "blog_supervised"),
   ("activities", "activities_supervised")]

/-- A raw user document as fetched from the `users` collection (or the
configured admin short-circuit).  `permissions` is the stored mapping, which
may be absent and may hold values of any type. -/
structure RawUser where
  email : String
  is_admin : Bool
  permissions : Option PyDict
deriving DecidableEq, Repr

/-- Model of `_default_permissions(value)` from `app/main.py`:
`{key: bool(permissions.get(key)) for key in PERMISSION_KEYS}` with
`permissions = value or {}`.  The result is the dict with exactly the six
permission keys, each the Python truthiness of the stored value. -/
def _default_permissions (value : Option PyDict) : List (String × Bool) :=
  let permissions := value.getD []
  PERMISSION_KEYS.map (fun key => (key, pyTruthy ((permissions.lookup key).getD PyVal.none)))

/-- The `permissions` mapping produced by `_normalize_user` in `app/main.py`:
all six keys `True` when `is_admin`, else `_default_permissions`. -/
def _normalize_user_permissions (user : RawUser) : List (String × Bool) :=
  if user.is_admin then PERMISSION_KEYS.map (fun key => (key, true))
  else _default_permissions user.permissions

/-- Model of `_has_permission(user, permission)` from `app/main.py`. -/
def _has_permission (user : Option RawUser) (permission : String) : Bool :=
  match user with
  | Option.none => false
  | some u =>
      if u.is_admin then true
      else ((_default_permissions u.permissions).lookup permission).getD false

/-- Model of `_has_supervised_permission(user, permission)` from `app/main.py`. -/
def _has_supervised_permission (user : Option RawUser) (permission : String) : Bool :=
  let supervised_key := (SUPERVISED_PERMISSION_MAP.lookup permission).getD ""
  if supervised_key = "" then false
  else _has_permission user supervised_key

/-- Model of `_has_any_permission(user, permission)` from `app/main.py`. -/
def _has_any_permission (user : Option RawUser) (permission : String) : Bool :=
  _has_permission user permission || _has_supervised_permission user permission

/-- Model of `_can_edit_entry(user, permission, author_email)` from `app/main.py`.
Note the Python guard `bool(author_email and author_email == user.get("email"))`:
a missing or empty `author_email` never matches. -/
def _can_edit_entry (user : Option RawUser) (permission : String)
    (author_email : Option String) : Bool :=
  match user with
  | Option.none => false
  | some u =>
      if u.is_admin || _has_permission (some u) permission then true
      else
        match author_email with
        | Option.none => false
        | some a => a != "" && a == u.email

/-- Model of `_can_manage_scope(user, scope)` from `app/main.py`. -/
def _can_manage_scope (user : Option RawUser) (scope : String) : Bool :=
  match user with
  | Option.none => false
  | some u => if u.is_admin then true else _has_permission (some u) scope

/-! ### Content documents -/

/-- A photo document from the `photos` collection, restricted to the fields
the authorization and publication logic reads.  `uploaded_by` may be missing
on legacy documents (`photo.get("uploaded_by")`).  `uploaded_at` is the upload
timestamp; all remaining fields are carried opaquely in `other`. -/
structure PhotoDoc where
  id : String
  uploaded_by : Option String
  is_hidden : Bool
  uploaded_at : Nat
  other : PyDict
deriving DecidableEq, Repr

/-- A blog-entry or activity document (`blog_entries` / `activities`
collections): the two collections share this shape for the purposes of the
authorization and publication logic.  `author_email` may be missing
(`entry.get("author_email")`); `published_at` is a timestamp; the remaining
fields are carried opaquely in `other`. -/
structure EntryDoc where
  id : String
  author_email : Option String
  is_hidden : Bool
  published_at : Nat
  other : PyDict
deriving DecidableEq, Repr

/-! ### Detail (view) handlers

Each handler takes the already-fetched document (`Option` models
`find_one` returning `None`) and returns `.ok ()` when the page is rendered,
or `.error code` for `raise HTTPException(status_code=code)`. -/

/-- Model of `astrofoto_detail` in `app/main.py`: 404 when the photo does not exist,
404 when it is hidden and the visitor is anonymous
(`if photo.get("is_hidden") and not user`), otherwise the page renders. -/
def astrofoto_detail (user : Option RawUser) (photo : Option PhotoDoc) :
    Except Nat Unit :=
  match photo with
  | Option.none => Except.error 404
  | some p =>
      if p.is_hidden && user.isNone then Except.error 404
      else Except.ok ()

/-- Model of `blog_detail` in `app/main.py`: hidden entries render only for a
base-permission holder (`can_manage`) or the author (`is_owner`), otherwise
404. -/
def blog_detail (user : Option RawUser) (entry : Option EntryDoc) :
    Except Nat Unit :=
  match entry with
  | Option.none => Except.error 404
  | some e =>
      if e.is_hidden then
        let can_manage := user.isSome && _has_permission user "blog"
        let is_owner :=
          match user with
          | Option.none => false
          | some u => e.author_email == some u.email
        if !(can_manage || is_owner) then Except.error 404 else Except.ok ()
      else Except.ok ()

/-- Model of `activities_detail` in `app/main.py`: same structure as `blog_detail`
with the `activities` permission. -/
def activities_detail (user : Option RawUser) (activity : Option EntryDoc) :
    Except Nat Unit :=
  match activity with
  | Option.none => Except.error 404
  | some e =>
      if e.is_hidden then
        let can_manage := user.isSome && _has_permission user "activities"
        let is_owner :=
          match user with
          | Option.none => false
          | some u => e.author_email == some u.email
        if !(can_manage || is_owner) then Except.error 404 else Except.ok ()
      else Except.ok ()

/-! ### Edit / delete route guards -/

/-- The guard sequence shared verbatim by the edit-form, edit-save and
delete routes (`astrofotos_edit`, `astrofotos_edit_submit`, `blog_edit`,
`blog_edit_submit`, `blog_delete`, `activities_edit`,
`activities_edit_submit`, `activities_delete` in `app/main.py`):
`if not user: 403`, then `if not _has_any_permission(user, scope): 403`,
then `if not _can_edit_entry(user, scope, author): 403`. -/
def editActionAllowed (user : Option RawUser) (scope : String)
    (author_email : Option String) : Bool :=
  user.isSome && _has_any_permission user scope
    && _can_edit_entry user scope author_email

/-! ### Edit-save effect on `is_hidden`

Each function returns the `is_hidden` value stored after the edit-save
`update_one`, given the raw form value (`is_hidden` checkbox, `"on"` when
checked) and the record's previous state. -/

/-- Model of `astrofotos_edit_submit` in `app/main.py`: the `is_hidden` key is added
to `updates` only when the editor holds the base `photos` permission;
otherwise the field is not written and keeps its previous value. -/
def astrofotos_edit_submit_is_hidden (user : RawUser)
    (is_hidden_form : Option String) (prev : Bool) : Bool :=
  if _has_permission (some user) "photos" then is_hidden_form == some "on"
  else prev

/-- Model of `blog_edit_submit` in `app/main.py`: `is_hidden` is the requested value
for a base-permission holder and is forced to `True` otherwise. -/
def blog_edit_submit_is_hidden (user : RawUser)
    (is_hidden_form : Option String) (prev : Bool) : Bool :=
  if _has_permission (some user) "blog" then is_hidden_form == some "on"
  else true

/-- Model of `activities_edit_submit` in `app/main.py`: `is_hidden` is the requested
value for a base-permission holder and is forced to `True` otherwise. -/
def activities_edit_submit_is_hidden (user : RawUser)
    (is_hidden_form : Option String) (prev : Bool) : Bool :=
  if _has_permission (some user) "activities" then is_hidden_form == some "on"
  else true

/-! ### Create routes -/

/-- Guard of `astrofotos_upload` in `app/main.py`:
`if not user or not _has_any_permission(user, "photos"): 403`. -/
def astrofotos_upload_allowed (user : Option RawUser) : Bool :=
  user.isSome && _has_any_permission user "photos"

/-- The `is_hidden` value of the photo inserted by `astrofotos_upload`:
`not (submission_action != "review" and _has_permission(user, "photos"))`. -/
def astrofotos_upload_is_hidden (user : RawUser)
    (submission_action : Option String) : Bool :=
  !(!(submission_action == some "review") && _has_permission (some user) "photos")

/-- Guard of `blog_new_submit` in `app/main.py`. -/
def blog_new_submit_allowed (user : Option RawUser) : Bool :=
  user.isSome && _has_any_permission user "blog"

/-- The `is_hidden` value of the entry inserted by `blog_new_submit`. -/
def blog_new_submit_is_hidden (user : RawUser)
    (submission_action : Option String) : Bool :=
  !(!(submission_action == some "review") && _has_permission (some user) "blog")

/-- Guard of `activities_new_submit` in `app/main.py`. -/
def activities_new_submit_allowed (user : Option RawUser) : Bool :=
  user.isSome && _has_any_permission user "activities"

/-- The `is_hidden` value of the activity inserted by `activities_new_submit`. -/
def activities_new_submit_is_hidden (user : RawUser)
    (submission_action : Option String) : Bool :=
  !(!(submission_action == some "review") && _has_permission (some user) "activities")

/-! ### Visibility toggle (manager console) -/

/-- The `update_one` semantics on a list of documents: apply `f` to the first
document matching `p`, leave everything else untouched. -/
def updateFirst (l : List α) (p : α → Bool) (f : α → α) : List α :=
  match l with
  | [] => []
  | x :: xs => if p x then f x :: xs else x :: updateFirst xs p f

/-- The `delete_one` semantics on a list of documents: remove the first document
matching `p`. -/
def deleteOne (l : List α) (p : α → Bool) : List α :=
  match l with
  | [] => []
  | x :: xs => if p x then xs else x :: deleteOne xs p

/-- The three content collections of the store. -/
structure SiteState where
  photos : List PhotoDoc
  blog_entries : List EntryDoc
  activities : List EntryDoc
deriving DecidableEq, Repr

/-- The `$set` document applied to a photo by `content_toggle_visibility`:
only `is_hidden` is written. -/
def togglePhoto (is_hidden : Bool) (d : PhotoDoc) : PhotoDoc :=
  {d with is_hidden := is_hidden}

/-- The `$set` document applied to a blog entry or activity by
`content_toggle_visibility`: `is_hidden` is written, and `published_at` is
refreshed to the current time when the requested state is visible. -/
def toggleEntry (is_hidden : Bool) (now : Nat) (d : EntryDoc) : EntryDoc :=
  if is_hidden then {d with is_hidden := is_hidden}
  else {d with is_hidden := is_hidden, published_at := now}

/-- Model of `content_toggle_visibility` in `app/main.py`: 403 unless
`_can_manage_scope(user, scope)`; `is_hidden = visibility == "hide"`;
updates the document in the scope's collection (refreshing `published_at`
for blog/activities when showing); 404 for an unknown scope. -/
def content_toggle_visibility (user : Option RawUser) (scope : String)
    (entry_id : String) (visibility : String) (now : Nat) (st : SiteState) :
    Except Nat SiteState :=
  if !(_can_manage_scope user scope) then Except.error 403
  else
    let is_hidden := visibility == "hide"
    if scope == "photos" then
      let photos := updateFirst st.photos (fun d => d.id == entry_id) (togglePhoto is_hidden)
      Except.ok {st with photos := photos}
    else if scope == "blog" then
      let entries := updateFirst st.blog_entries (fun d => d.id == entry_id) (toggleEntry is_hidden now)
      Except.ok {st with blog_entries := entries}
    else if scope == "activities" then
      let entries := updateFirst st.activities (fun d => d.id == entry_id) (toggleEntry is_hidden now)
      Except.ok {st with activities := entries}
    else Except.error 404

/-! ### Registration admission flow -/

/-- A document of the `users` collection as written by account creation. -/
structure UserDoc where
  email : String
  password_hash : String
  is_admin : Bool
  permissions : List (String × Bool)
deriving DecidableEq, Repr

/-- A document of the `pending_registrations` collection.  `password_hash`
may be missing on pre-hashing legacy records, and Python truthiness also
treats an empty stored hash as missing (`if password_hash:`). -/
structure PendingDoc where
  id : String
  email : String
  password_hash : Option String
  requested_at : Nat
deriving DecidableEq, Repr

/-- The state the admission flow acts on. -/
structure AdminState where
  users : List UserDoc
  pending : List PendingDoc
deriving DecidableEq, Repr

/-- Model of `require_admin` in `app/main.py`: the dependency raises 403 unless the
current user exists and `is_admin`. -/
def require_admin (user : Option RawUser) : Bool :=
  match user with
  | Option.none => false
  | some u => u.is_admin

/-- The user document inserted by `create_user` in `app/auth.py`:
explicit all-false permission mapping, `is_admin` false, bcrypt hash of the
given password (`hashFn` abstracts the bcrypt library). -/
def create_user (hashFn : String → String) (email password : String) : UserDoc :=
  { email := email,
    password_hash := hashFn password,
    is_admin := false,
    permissions :=
      [("photos", false), ("blog", false), ("activities", false),
       ("photos_supervised", false), ("blog_supervised", false),
       ("activities_supervised", false)] }

/-- The user document `admin_approve` materializes for a pending
registration: when the stored hash is truthy (`if password_hash:`) the
document carries it with `is_admin` false and `_default_permissions()`;
otherwise the `create_user` fallback with the fixed temporary password
`"temporal"` is used. -/
def approvedUser (hashFn : String → String) (pending : PendingDoc) : UserDoc :=
  let hasHash :=
    match pending.password_hash with
    | Option.none => false
    | some h => h != ""
  if hasHash then
    { email := pending.email,
      password_hash := pending.password_hash.getD "",
      is_admin := false,
      permissions := _default_permissions Option.none }
  else create_user hashFn pending.email "temporal"

/-- Model of `admin_approve` in `app/main.py` (admin-only): if the pending
record exists, insert the materialized user, then delete the pending record;
when the pending record does not exist nothing happens.  `hashFn` abstracts
the bcrypt library. -/
def admin_approve (hashFn : String → String) (user : Option RawUser)
    (request_id : String) (st : AdminState) : Except Nat AdminState :=
  if !(require_admin user) then Except.error 403
  else
    match st.pending.find? (fun p => p.id == request_id) with
    | Option.none => Except.ok st
    | some pending =>
        Except.ok
          { users := st.users ++ [approvedUser hashFn pending],
            pending := deleteOne st.pending (fun p => p.id == request_id) }

/-- Model of `admin_delete` in `app/main.py` (admin-only): delete the pending record
by id; deleting an absent id is a plain no-op of `delete_one`. -/
def admin_delete (user : Option RawUser) (request_id : String)
    (st : AdminState) : Except Nat AdminState :=
  if !(require_admin user) then Except.error 403
  else Except.ok {st with pending := deleteOne st.pending (fun p => p.id == request_id)}

/-! ### Profile equipment notes -/

/-- A document of the `users` collection as the profile routes see it:
`equipment_notes` and `is_admin` are explicit, every other field is carried
opaquely in `other`. -/
structure ProfileDoc where
  email : String
  equipment_notes : String
  is_admin : Bool
  other : PyDict
deriving DecidableEq, Repr

/-- Python `str.strip()` on code points: drop leading and trailing
whitespace characters. -/
def pyStrip (s : String) : String :=
  (((s.toList.dropWhile Char.isWhitespace).reverse.dropWhile
      Char.isWhitespace).reverse).asString

/-- The notes value stored by `profile_update_equipment` in `app/main.py`:
`notes = equipment_notes.strip()`, truncated with `notes[:500]` (a slice of
code points) when longer than 500 characters. -/
def profile_update_equipment_notes (equipment_notes : String) : String :=
  let notes := pyStrip equipment_notes
  if notes.length > 500 then (notes.toList.take 500).asString else notes

/-- The `$set {"equipment_notes": notes}` transform applied to an existing
profile document by `profile_update_equipment`. -/
def setEquipmentNotes (notes : String) (d : ProfileDoc) : ProfileDoc :=
  {d with equipment_notes := notes}

/-- Model of `profile_update_equipment` in `app/main.py` as its effect on the `users`
collection: an upserted `update_one` keyed on the user's email with
`$set {"equipment_notes": notes}` and `$setOnInsert {"is_admin": ...}` —
updating the first matching document, or inserting a fresh document carrying
the filter's email, the set field and the on-insert field. -/
def profile_update_equipment (user_email : String) (user_is_admin : Bool)
    (equipment_notes : String) (users : List ProfileDoc) : List ProfileDoc :=
  let notes := profile_update_equipment_notes equipment_notes
  match users.find? (fun d => d.email == user_email) with
  | some _ => updateFirst users (fun d => d.email == user_email) (setEquipmentNotes notes)
  | Option.none =>
      users ++ [{ email := user_email, equipment_notes := notes,
                  is_admin := user_is_admin, other := [] }]

/-! ### Spec-side definitions

These two definitions follow the specification's words, to be compared with
the code-derived definitions above. -/

/-- Modelled from the spec: the edit-rights formula of section 4.3,
`canEdit = isAdmin OR basePermission(scope) OR (authorEmail == principal.email
AND (basePermission(scope) OR supervisedPermission(scope)))`. -/
def specCanEdit (user : Option RawUser) (scope : String)
    (author_email : Option String) : Bool :=
  match user with
  | Option.none => false
  | some u =>
      u.is_admin
      || _has_permission (some u) scope
      || (author_email == some u.email
          && (_has_permission (some u) scope || _has_supervised_permission (some u) scope))

/-- Modelled from the spec: the edit-save rule of section 4.4, "requested
`isHidden` value is honored only if the editor holds `basePermission(scope)`;
otherwise the record is forced to Draft". -/
def specEditSaveHidden (base : Bool) (requested : Bool) : Bool :=
  if base then requested else true

/-- The owner test the detail handlers perform:
`bool(user and record.get("author_email") == user.get("email"))`. -/
def isOwner (user : Option RawUser) (author_email : Option String) : Bool :=
  match user with
  | Option.none => false
  | some u => author_email == some u.email

/-! ### Concrete sample data used by witnesses and counterexamples -/

/-- An authenticated member with no permission flags at all. -/
def c1_user : RawUser := ⟨"member@example.com", false, some []⟩

/-- A hidden photo uploaded by someone else. -/
def c1_photo : PhotoDoc := ⟨"p1", some "owner@example.com", true, 0, []⟩

/-- A hidden blog entry, for the C1 witness side. -/
def c1_entry : EntryDoc := ⟨"e1", some "owner@example.com", true, 0, []⟩

/-- A supervised-only photos contributor. -/
def c2_user : RawUser :=
  ⟨"author@example.com", false, some [("photos_supervised", PyVal.bool true)]⟩

/-- A currently published photo owned by `c2_user`. -/
def c2_photo : PhotoDoc := ⟨"p2", some "author@example.com", false, 0, []⟩

/-- A supervised-only blog contributor, for the C3 witness. -/
def c3_user : RawUser :=
  ⟨"user@example.com", false, some [("blog_supervised", PyVal.bool true)]⟩

/-- A member with no flags, for the C4 witness. -/
def c4_user : RawUser := ⟨"nobody@example.com", false, some []⟩

/-- A user whose stored permissions carry a truthy non-boolean value. -/
def c5_user : RawUser :=
  ⟨"member@example.com", false, some [("photos", PyVal.str "yes")]⟩

/-- A hidden entry for the C6 witness. -/
def c6_entry : EntryDoc := ⟨"e6", some "owner@example.com", true, 0, []⟩

/-- An admin principal for the C7 witness. -/
def c7_admin : RawUser := ⟨"admin@example.com", true, Option.none⟩

/-- Store state for the C7 witness: one hidden blog entry. -/
def c7_state : SiteState := ⟨[], [⟨"e7", some "x@y.z", true, 5, []⟩], []⟩

/-- The state expected after showing entry `e7` at time 99. -/
def c7_state' : SiteState := ⟨[], [⟨"e7", some "x@y.z", false, 99, []⟩], []⟩

/-- An admin principal for the C8 witness. -/
def c8_admin : RawUser := ⟨"admin@example.com", true, Option.none⟩

/-- A legacy pending registration with no stored password hash. -/
def c8_pending : PendingDoc := ⟨"r1", "x@y.com", Option.none, 0⟩

/-- Admission state holding only the legacy pending registration. -/
def c8_state : AdminState := ⟨[], [c8_pending]⟩

/-- An admin principal for the C9 witness. -/
def c9_admin : RawUser := ⟨"admin2@example.com", true, Option.none⟩

/-! ## Theorems settling the claims -/

/-- C1 (counterexample): an authenticated principal with no permission flags
and a different email can view a hidden photo — `astrofoto_detail` renders
the page for any logged-in user, so the claimed biconditional fails in the
photos scope. -/
theorem claim_c1_counterexample :
    astrofoto_detail (some c1_user) (some c1_photo) = Except.ok ()
    ∧ c1_photo.is_hidden = true
    ∧ _has_permission (some c1_user) "photos" = false
    ∧ c1_photo.uploaded_by ≠ some c1_user.email :=
  ⟨rfl, rfl, rfl, by decide⟩

/-- C1 (amended): for the blog and activities scopes, viewing a record is
allowed iff it is published, or the principal holds the base flag, or the
principal is the author; for the photos scope, viewing a hidden photo is
allowed iff the principal is authenticated (any logged-in user). -/
theorem claim_c1_amended (user : Option RawUser) (p : PhotoDoc) (b a : EntryDoc) :
    (astrofoto_detail user (some p) = Except.ok ()
      ↔ (!p.is_hidden || user.isSome) = true)
    ∧ (blog_detail user (some b) = Except.ok ()
      ↔ (!b.is_hidden || _has_permission user "blog"
          || isOwner user b.author_email) = true)
    ∧ (activities_detail user (some a) = Except.ok ()
      ↔ (!a.is_hidden || _has_permission user "activities"
          || isOwner user a.author_email) = true) := by
  refine ⟨?_, ?_, ?_⟩
  · cases user <;> cases hp : p.is_hidden <;> simp [astrofoto_detail, hp]
  · cases user with
    | none =>
        cases hb : b.is_hidden <;> simp [blog_detail, isOwner, hb, _has_permission]
    | some u =>
        cases hb : b.is_hidden <;> cases hadm : u.is_admin <;>
          cases hp : ((_default_permissions u.permissions).lookup "blog").getD false <;>
          simp [blog_detail, isOwner, hb, _has_permission, hadm, hp]
  · cases user with
    | none =>
        cases ha : a.is_hidden <;> simp [activities_detail, isOwner, ha, _has_permission]
    | some u =>
        cases ha : a.is_hidden <;> cases hadm : u.is_admin <;>
          cases hp : ((_default_permissions u.permissions).lookup "activities").getD false <;>
          simp [activities_detail, isOwner, ha, _has_permission, hadm, hp]

/-- C2 (counterexample): a supervised-only photos contributor is authorized
to edit their own published photo, yet the edit-save leaves `is_hidden`
unchanged (still `false`) instead of forcing it to Draft as claimed. -/
theorem claim_c2_counterexample :
    editActionAllowed (some c2_user) "photos" c2_photo.uploaded_by = true
    ∧ _has_permission (some c2_user) "photos" = false
    ∧ astrofotos_edit_submit_is_hidden c2_user Option.none c2_photo.is_hidden = false :=
  ⟨rfl, rfl, rfl⟩

/-- C2 (amended): on edit-save the requested `is_hidden` value is honored iff
the editor holds the base permission; otherwise the blog and activities
routes force the record to Draft, while the photos route leaves the stored
`is_hidden` unchanged — so a supervised-only photos editor still can never
publish a draft, but a previously published photo stays published. -/
theorem claim_c2_amended (u : RawUser) (form : Option String) (prev : Bool) :
    blog_edit_submit_is_hidden u form prev
      = specEditSaveHidden (_has_permission (some u) "blog") (form == some "on")
    ∧ activities_edit_submit_is_hidden u form prev
      = specEditSaveHidden (_has_permission (some u) "activities") (form == some "on")
    ∧ astrofotos_edit_submit_is_hidden u form prev
      = (if _has_permission (some u) "photos" then form == some "on" else prev)
    ∧ (_has_permission (some u) "photos" = false → prev = true →
        astrofotos_edit_submit_is_hidden u form prev = true) := by
  refine ⟨rfl, rfl, rfl, ?_⟩
  intro hp hprev
  simp [astrofotos_edit_submit_is_hidden, hp, hprev]

/-- C2 (witness for the amended theorem): a supervised-only editor requesting
publication of a hidden photo still leaves the record hidden. -/
theorem claim_c2_witness :
    astrofotos_edit_submit_is_hidden c2_user (some "on") true = true :=
  (claim_c2_amended c2_user (some "on") true).2.2.2 rfl rfl

/-- C3: the edit action (shared by the edit-form, edit-save and owner-delete
routes) is permitted exactly per the spec's `canEdit` formula — admin, or
base permission, or author with at least the supervised grant — for every
principal whose session email is non-empty; anonymous principals are always
denied, and an author holding neither flag has no edit rights over their own
record. -/
theorem claim_c3_edit_rights (u : RawUser) (scope : String) (author : Option String)
    (hemail : u.email ≠ "") :
    editActionAllowed (some u) scope author = specCanEdit (some u) scope author
    ∧ editActionAllowed Option.none scope author = false
    ∧ (u.is_admin = false → _has_permission (some u) scope = false →
        _has_supervised_permission (some u) scope = false →
        editActionAllowed (some u) scope author = false) := by
  refine ⟨?_, rfl, ?_⟩
  · cases hadm : u.is_admin
    · simp only [editActionAllowed, specCanEdit, _has_any_permission,
        _can_edit_entry, Option.isSome_some, Bool.true_and, hadm,
        Bool.false_or, Bool.false_eq_true, false_or]
      cases hp : _has_permission (some u) scope
      · cases hs : _has_supervised_permission (some u) scope
        · simp
        · cases author with
          | none => simp
          | some a =>
              by_cases haeq : a = u.email
              · have h0 : a ≠ "" := by rw [haeq]; exact hemail
                have h1 : (a == "") = false := beq_eq_false_iff_ne.mpr h0
                have h2 : (a == u.email) = true := beq_iff_eq.mpr haeq
                simp [bne, h1, h2]
              · have h2 : (a == u.email) = false := beq_eq_false_iff_ne.mpr haeq
                simp [h2]
      · simp
    · simp [editActionAllowed, specCanEdit, _has_any_permission,
        _can_edit_entry, _has_permission, hadm]
  · intro _ h2 h3
    simp [editActionAllowed, _has_any_permission, h2, h3]

/-- C3 (witness): a supervised-only blog contributor editing their own entry
is allowed, matching the spec formula. -/
theorem claim_c3_witness :
    editActionAllowed (some c3_user) "blog" (some "user@example.com")
      = specCanEdit (some c3_user) "blog" (some "user@example.com") :=
  (claim_c3_edit_rights c3_user "blog" (some "user@example.com") (by decide)).1

/-- C4: creating a record is allowed exactly when the principal holds some
permission for the scope (anonymous principals and flagless non-admins are
denied), and the created record is Published iff the submission intent is not
"review" and the creator holds the base permission — in all three scopes. -/
theorem claim_c4_create (u : RawUser) (action : Option String) :
    (astrofotos_upload_allowed (some u) = _has_any_permission (some u) "photos")
    ∧ (blog_new_submit_allowed (some u) = _has_any_permission (some u) "blog")
    ∧ (activities_new_submit_allowed (some u) = _has_any_permission (some u) "activities")
    ∧ (astrofotos_upload_is_hidden u action = false ↔
        action ≠ some "review" ∧ _has_permission (some u) "photos" = true)
    ∧ (blog_new_submit_is_hidden u action = false ↔
        action ≠ some "review" ∧ _has_permission (some u) "blog" = true)
    ∧ (activities_new_submit_is_hidden u action = false ↔
        action ≠ some "review" ∧ _has_permission (some u) "activities" = true)
    ∧ (astrofotos_upload_allowed Option.none = false)
    ∧ (blog_new_submit_allowed Option.none = false)
    ∧ (activities_new_submit_allowed Option.none = false)
    ∧ (u.is_admin = false → _has_permission (some u) "photos" = false →
        _has_supervised_permission (some u) "photos" = false →
        astrofotos_upload_allowed (some u) = false)
    ∧ (u.is_admin = false → _has_permission (some u) "blog" = false →
        _has_supervised_permission (some u) "blog" = false →
        blog_new_submit_allowed (some u) = false)
    ∧ (u.is_admin = false → _has_permission (some u) "activities" = false →
        _has_supervised_permission (some u) "activities" = false →
        activities_new_submit_allowed (some u) = false) := by
  refine ⟨?_, ?_, ?_, ?_, ?_, ?_, rfl, rfl, rfl, ?_, ?_, ?_⟩
  · simp [astrofotos_upload_allowed]
  · simp [blog_new_submit_allowed]
  · simp [activities_new_submit_allowed]
  · cases hr : (action == some "review") with
    | false =>
        have hne : action ≠ some "review" := beq_eq_false_iff_ne.mp hr
        cases hp : _has_permission (some u) "photos" <;>
          simp [astrofotos_upload_is_hidden, hr, hp, hne]
    | true =>
        have heq : action = some "review" := beq_iff_eq.mp hr
        simp [astrofotos_upload_is_hidden, hr, heq]
  · cases hr : (action == some "review") with
    | false =>
        have hne : action ≠ some "review" := beq_eq_false_iff_ne.mp hr
        cases hp : _has_permission (some u) "blog" <;>
          simp [blog_new_submit_is_hidden, hr, hp, hne]
    | true =>
        have heq : action = some "review" := beq_iff_eq.mp hr
        simp [blog_new_submit_is_hidden, hr, heq]
  · cases hr : (action == some "review") with
    | false =>
        have hne : action ≠ some "review" := beq_eq_false_iff_ne.mp hr
        cases hp : _has_permission (some u) "activities" <;>
          simp [activities_new_submit_is_hidden, hr, hp, hne]
    | true =>
        have heq : action = some "review" := beq_iff_eq.mp hr
        simp [activities_new_submit_is_hidden, hr, heq]
  · intro _ h2 h3
    simp [astrofotos_upload_allowed, _has_any_permission, h2, h3]
  · intro _ h2 h3
    simp [blog_new_submit_allowed, _has_any_permission, h2, h3]
  · intro _ h2 h3
    simp [activities_new_submit_allowed, _has_any_permission, h2, h3]

/-- C4 (witness): a non-admin member with no flags at all is denied creation
in every scope. -/
theorem claim_c4_witness :
    astrofotos_upload_allowed (some c4_user) = false
    ∧ blog_new_submit_allowed (some c4_user) = false
    ∧ activities_new_submit_allowed (some c4_user) = false := by
  have h := claim_c4_create c4_user Option.none
  exact ⟨h.2.2.2.2.2.2.2.2.2.1 rfl rfl rfl,
         h.2.2.2.2.2.2.2.2.2.2.1 rfl rfl rfl,
         h.2.2.2.2.2.2.2.2.2.2.2 rfl rfl rfl⟩

/-- C5 (counterexample): a stored permissions mapping holding the truthy
non-boolean value `"yes"` yields flag `true` after normalization, where the
claim demands that any non-boolean value default to `false`. -/
theorem claim_c5_counterexample :
    (_normalize_user_permissions c5_user).lookup "photos" = some true
    ∧ (c5_user.permissions.getD []).lookup "photos" = some (PyVal.str "yes")
    ∧ PyVal.str "yes" ≠ PyVal.bool true
    ∧ PyVal.str "yes" ≠ PyVal.bool false := by decide

/-- C5 (amended): normalization is pure and total; an absent principal has
every flag false; an admin gets all six flags true regardless of storage; the
result always has exactly the six permission keys in order; and for a
non-admin each of the six flags is the Python truthiness of the stored value,
so missing and falsy values default to false while truthy non-boolean values
coerce to true. -/
theorem claim_c5_amended :
    (∀ k : String, _has_permission Option.none k = false)
    ∧ (∀ u : RawUser, u.is_admin = true →
        _normalize_user_permissions u = PERMISSION_KEYS.map (fun k => (k, true)))
    ∧ (∀ u : RawUser, (_normalize_user_permissions u).map Prod.fst = PERMISSION_KEYS)
    ∧ (∀ (u : RawUser) (k : String), u.is_admin = false → k ∈ PERMISSION_KEYS →
        (_normalize_user_permissions u).lookup k
          = some (pyTruthy (((u.permissions.getD []).lookup k).getD PyVal.none))) := by
  refine ⟨fun _ => rfl, ?_, ?_, ?_⟩
  · intro u h
    simp [_normalize_user_permissions, h]
  · intro u
    cases h : u.is_admin <;>
      simp [_normalize_user_permissions, _default_permissions, h, PERMISSION_KEYS]
  · intro u k h hk
    have hperm : _normalize_user_permissions u = _default_permissions u.permissions := by
      simp [_normalize_user_permissions, h]
    rw [hperm]
    simp only [PERMISSION_KEYS, List.mem_cons, List.not_mem_nil, or_false] at hk
    rcases hk with rfl | rfl | rfl | rfl | rfl | rfl <;> rfl

/-- C5 (witness): an admin with no stored permissions normalizes to all-true
flags, and a non-admin with a stored boolean flag keeps it. -/
theorem claim_c5_witness :
    _normalize_user_permissions ⟨"a@b.c", true, Option.none⟩
      = PERMISSION_KEYS.map (fun k => (k, true))
    ∧ (_normalize_user_permissions ⟨"a@b.c", false, some [("blog", PyVal.bool true)]⟩).lookup "blog"
      = some true := by
  constructor
  · exact claim_c5_amended.2.1 ⟨"a@b.c", true, Option.none⟩ rfl
  · have h := claim_c5_amended.2.2.2
      ⟨"a@b.c", false, some [("blog", PyVal.bool true)]⟩ "blog" rfl (by decide)
    simpa using h

/-- C6: every denial issued by a content detail handler — including a denied
view of a hidden record — surfaces as status 404 (not found), never as 403
(forbidden), in all three scopes. -/
theorem claim_c6_notfound (user : Option RawUser) (photo : Option PhotoDoc)
    (entry activity : Option EntryDoc) (c : Nat) :
    (astrofoto_detail user photo = Except.error c → c = 404)
    ∧ (blog_detail user entry = Except.error c → c = 404)
    ∧ (activities_detail user activity = Except.error c → c = 404) := by
  refine ⟨?_, ?_, ?_⟩
  · intro h
    rcases photo with _ | p
    · simp [astrofoto_detail] at h
      exact h.symm
    · simp only [astrofoto_detail] at h
      split at h
      · simp at h
        exact h.symm
      · simp at h
  · intro h
    rcases entry with _ | e
    · simp [blog_detail] at h
      exact h.symm
    · simp only [blog_detail] at h
      split at h
      · split at h
        · simp at h
          exact h.symm
        · simp at h
      · simp at h
  · intro h
    rcases activity with _ | e
    · simp [activities_detail] at h
      exact h.symm
    · simp only [activities_detail] at h
      split at h
      · split at h
        · simp at h
          exact h.symm
        · simp at h
      · simp at h

/-- C6 (witness): an anonymous visitor denied a hidden blog entry receives a
404. -/
theorem claim_c6_witness :
    blog_detail Option.none (some c6_entry) = Except.error 404 ∧ (404 : Nat) = 404 :=
  ⟨rfl, (claim_c6_notfound Option.none Option.none (some c6_entry) Option.none 404).2.1 rfl⟩

/-- Whether an `Except` value is a success. -/
def isOkB : Except Nat α → Bool
  | Except.ok _ => true
  | Except.error _ => false

/-- C7: for each of the three scopes, the visibility toggle succeeds exactly
when `_can_manage_scope` holds; on success it updates only the matched
document of the scope's collection, leaving the two other collections
untouched; the per-document update sets `is_hidden` to the requested value,
refreshes `published_at` to the current time when publishing a blog entry or
activity while keeping it when hiding, never touches a photo's upload
timestamp, and changes no other field. -/
theorem claim_c7_toggle (user : Option RawUser) (scope entry_id visibility : String)
    (now : Nat) (st : SiteState)
    (hscope : scope = "photos" ∨ scope = "blog" ∨ scope = "activities") :
    (isOkB (content_toggle_visibility user scope entry_id visibility now st) = true
      ↔ _can_manage_scope user scope = true)
    ∧ (scope = "photos" → ∀ st',
        content_toggle_visibility user scope entry_id visibility now st = Except.ok st' →
        st'.photos = updateFirst st.photos (fun d => d.id == entry_id)
            (togglePhoto (visibility == "hide"))
        ∧ st'.blog_entries = st.blog_entries ∧ st'.activities = st.activities)
    ∧ (scope = "blog" → ∀ st',
        content_toggle_visibility user scope entry_id visibility now st = Except.ok st' →
        st'.blog_entries = updateFirst st.blog_entries (fun d => d.id == entry_id)
            (toggleEntry (visibility == "hide") now)
        ∧ st'.photos = st.photos ∧ st'.activities = st.activities)
    ∧ (scope = "activities" → ∀ st',
        content_toggle_visibility user scope entry_id visibility now st = Except.ok st' →
        st'.activities = updateFirst st.activities (fun d => d.id == entry_id)
            (toggleEntry (visibility == "hide") now)
        ∧ st'.photos = st.photos ∧ st'.blog_entries = st.blog_entries)
    ∧ (∀ d : PhotoDoc,
        (togglePhoto (visibility == "hide") d).is_hidden = (visibility == "hide")
        ∧ (togglePhoto (visibility == "hide") d).id = d.id
        ∧ (togglePhoto (visibility == "hide") d).uploaded_by = d.uploaded_by
        ∧ (togglePhoto (visibility == "hide") d).uploaded_at = d.uploaded_at
        ∧ (togglePhoto (visibility == "hide") d).other = d.other)
    ∧ (∀ d : EntryDoc,
        (toggleEntry (visibility == "hide") now d).is_hidden = (visibility == "hide")
        ∧ ((visibility == "hide") = false →
            (toggleEntry (visibility == "hide") now d).published_at = now)
        ∧ ((visibility == "hide") = true →
            (toggleEntry (visibility == "hide") now d).published_at = d.published_at)
        ∧ (toggleEntry (visibility == "hide") now d).id = d.id
        ∧ (toggleEntry (visibility == "hide") now d).author_email = d.author_email
        ∧ (toggleEntry (visibility == "hide") now d).other = d.other) := by
  refine ⟨?_, ?_, ?_, ?_, ?_, ?_⟩
  · rcases hscope with rfl | rfl | rfl <;>
      cases hm : _can_manage_scope user _ <;>
      simp [content_toggle_visibility, hm, isOkB]
  · rintro rfl st' h
    cases hm : _can_manage_scope user "photos" <;>
      simp [content_toggle_visibility, hm] at h
    rcases h with rfl
    exact ⟨rfl, rfl, rfl⟩
  · rintro rfl st' h
    cases hm : _can_manage_scope user "blog" <;>
      simp [content_toggle_visibility, hm] at h
    rcases h with rfl
    exact ⟨rfl, rfl, rfl⟩
  · rintro rfl st' h
    cases hm : _can_manage_scope user "activities" <;>
      simp [content_toggle_visibility, hm] at h
    rcases h with rfl
    exact ⟨rfl, rfl, rfl⟩
  · intro d
    cases hv : (visibility == "hide") <;> simp [togglePhoto, hv]
  · intro d
    cases hv : (visibility == "hide") <;> simp [toggleEntry, hv]

/-- C7 (witness): an admin showing a hidden blog entry updates the blog
collection in place and refreshes `published_at` to the current time. -/
theorem claim_c7_witness :
    c7_state'.blog_entries
      = updateFirst c7_state.blog_entries (fun d => d.id == "e7")
          (toggleEntry (("show" : String) == "hide") 99)
    ∧ c7_state'.photos = c7_state.photos
    ∧ c7_state'.activities = c7_state.activities := by
  have h := claim_c7_toggle (some c7_admin) "blog" "e7" "show" 99 c7_state
    (Or.inr (Or.inl rfl))
  exact h.2.2.1 rfl c7_state' (by rfl)

/-- C8: approving an existing pending registration as admin appends exactly
one user record carrying the request's email, `is_admin` false and all six
permission flags false, and deletes the pending record; the new user carries
the stored hash when it is present and non-empty, and otherwise the approval
still completes with the hash of the fixed temporary password `"temporal"`. -/
theorem claim_c8_approve (hashFn : String → String) (user : Option RawUser)
    (rid : String) (st : AdminState) (p : PendingDoc)
    (hadmin : require_admin user = true)
    (hfind : st.pending.find? (fun q => q.id == rid) = some p) :
    admin_approve hashFn user rid st
      = Except.ok ⟨st.users ++ [approvedUser hashFn p],
                   deleteOne st.pending (fun q => q.id == rid)⟩
    ∧ (approvedUser hashFn p).email = p.email
    ∧ (approvedUser hashFn p).is_admin = false
    ∧ (approvedUser hashFn p).permissions = PERMISSION_KEYS.map (fun k => (k, false))
    ∧ (p.password_hash = Option.none ∨ p.password_hash = some "" →
        (approvedUser hashFn p).password_hash = hashFn "temporal")
    ∧ (p.password_hash ≠ Option.none → p.password_hash ≠ some "" →
        (approvedUser hashFn p).password_hash = p.password_hash.getD "") := by
  refine ⟨?_, ?_, ?_, ?_, ?_, ?_⟩
  · simp [admin_approve, hadmin, hfind]
  · rcases hph : p.password_hash with _ | h
    · simp [approvedUser, create_user, hph]
    · cases hne : (h != "") <;> simp [approvedUser, create_user, hph, hne]
  · rcases hph : p.password_hash with _ | h
    · simp [approvedUser, create_user, hph]
    · cases hne : (h != "") <;> simp [approvedUser, create_user, hph, hne]
  · rcases hph : p.password_hash with _ | h
    · simp [approvedUser, create_user, hph]
      decide
    · cases hne : (h != "") <;> simp [approvedUser, create_user, hph, hne] <;> decide
  · intro hcase
    rcases hcase with hph | hph <;> simp [approvedUser, create_user, hph]
  · intro h1 h2
    rcases hph : p.password_hash with _ | h
    · exact absurd hph h1
    · have hne : h ≠ "" := by
        intro hh
        exact h2 (by rw [hph, hh])
      have hb : (h != "") = true := bne_iff_ne.mpr hne
      simp [approvedUser, hph, hb]

/-- C8 (witness): approving a legacy pending registration with no stored
hash completes with the temporary-password fallback and removes the pending
record. -/
theorem claim_c8_witness :
    admin_approve (fun s => s) (some c8_admin) "r1" c8_state
      = Except.ok ⟨c8_state.users ++ [approvedUser (fun s => s) c8_pending],
                   deleteOne c8_state.pending (fun q => q.id == "r1")⟩
    ∧ (approvedUser (fun s => s) c8_pending).password_hash = "temporal" := by
  have h := claim_c8_approve (fun s => s) (some c8_admin) "r1" c8_state c8_pending rfl (by rfl)
  exact ⟨h.1, h.2.2.2.2.1 (Or.inl rfl)⟩

/-- Removing the first match from a list with no match leaves it unchanged. -/
theorem deleteOne_eq_self {α : Type} {l : List α} {p : α → Bool}
    (h : ∀ x ∈ l, ¬ p x = true) : deleteOne l p = l := by
  induction l with
  | nil => rfl
  | cons x xs ih =>
      have hx : p x = false :=
        Bool.not_eq_true _ ▸ h x (List.mem_cons_self x xs)
      simp [deleteOne, hx, ih (fun y hy => h y (List.mem_cons_of_mem x hy))]

/-- C9: re-invoking approve or reject on an id whose pending record no longer
exists is a no-op: both handlers succeed (no error) and return the state
unchanged. -/
theorem claim_c9_idempotent (hashFn : String → String) (user : Option RawUser)
    (rid : String) (st : AdminState)
    (hadmin : require_admin user = true)
    (hfind : st.pending.find? (fun q => q.id == rid) = Option.none) :
    admin_approve hashFn user rid st = Except.ok st
    ∧ admin_delete user rid st = Except.ok st := by
  have hnone : ∀ q ∈ st.pending, ¬ ((fun q => q.id == rid) q = true) :=
    fun q hq => by
      have := List.find?_eq_none.mp hfind q hq
      simpa using this
  constructor
  · simp [admin_approve, hadmin, hfind]
  · simp [admin_delete, hadmin, deleteOne_eq_self hnone]

/-- C9 (witness): approving and rejecting an already-resolved id on an empty
pending collection both return the state unchanged. -/
theorem claim_c9_witness :
    admin_approve (fun s => s) (some c9_admin) "gone" ⟨[], []⟩ = Except.ok ⟨[], []⟩
    ∧ admin_delete (some c9_admin) "gone" ⟨[], []⟩ = Except.ok ⟨[], []⟩ :=
  claim_c9_idempotent (fun s => s) (some c9_admin) "gone" ⟨[], []⟩ rfl rfl

/-- C10: the equipment-notes update stores the stripped input truncated to
its first 500 characters, so the stored value never exceeds 500 characters;
an existing profile document is changed only in its `equipment_notes` field,
and a missing profile is inserted with just the email, the notes and the
`is_admin` on-insert default. -/
theorem claim_c10_equipment (input email : String) (adm : Bool)
    (users : List ProfileDoc) (d : ProfileDoc) :
    profile_update_equipment_notes input = ((pyStrip input).toList.take 500).asString
    ∧ (profile_update_equipment_notes input).length ≤ 500
    ∧ (setEquipmentNotes (profile_update_equipment_notes input) d).equipment_notes
        = profile_update_equipment_notes input
    ∧ (setEquipmentNotes (profile_update_equipment_notes input) d).email = d.email
    ∧ (setEquipmentNotes (profile_update_equipment_notes input) d).is_admin = d.is_admin
    ∧ (setEquipmentNotes (profile_update_equipment_notes input) d).other = d.other
    ∧ (users.find? (fun q => q.email == email) = Option.none →
        profile_update_equipment email adm input users
          = users ++ [⟨email, profile_update_equipment_notes input, adm, []⟩])
    ∧ (∀ q, users.find? (fun q' => q'.email == email) = some q →
        profile_update_equipment email adm input users
          = updateFirst users (fun q' => q'.email == email)
              (setEquipmentNotes (profile_update_equipment_notes input))) := by
  have h1 : profile_update_equipment_notes input
      = ((pyStrip input).toList.take 500).asString := by
    by_cases hlen : (pyStrip input).length > 500
    · simp [profile_update_equipment_notes, hlen]
    · push_neg at hlen
      have hif : ¬ ((pyStrip input).length > 500) := by omega
      have htake : (pyStrip input).toList.take 500 = (pyStrip input).toList :=
        List.take_of_length_le hlen
      simp only [profile_update_equipment_notes]
      rw [if_neg hif, htake]
      rfl
  refine ⟨h1, ?_, rfl, rfl, rfl, rfl, ?_, ?_⟩
  · rw [h1]
    have h2 : (((pyStrip input).toList.take 500).asString).length
        = ((pyStrip input).toList.take 500).length := rfl
    rw [h2, List.length_take]
    exact Nat.min_le_left _ _
  · intro hfind
    simp [profile_update_equipment, hfind]
  · intro q hfind
    simp [profile_update_equipment, hfind]

/-- C10 (witness): updating the equipment notes of a fresh profile stores the
stripped text and stays within the 500-character bound. -/
theorem claim_c10_witness :
    profile_update_equipment "a@b.c" false " telescope " []
      = [⟨"a@b.c", "telescope", false, []⟩]
    ∧ (profile_update_equipment_notes " telescope ").length ≤ 500 := by
  have h := claim_c10_equipment " telescope " "a@b.c" false [] ⟨"a@b.c", "", false, []⟩
  refine ⟨?_, h.2.1⟩
  rw [h.2.2.2.2.2.2.1 rfl]
  decide

end CDweb
